import Mathlib

/-!
Shallow embedding of the process-supervisor core of the repository
(`src/frontend/src-tauri/src/server.rs` and `src/frontend/src-tauri/src/lib.rs`).

Modelling conventions:
* The outcome of one HTTP request (`reqwest::get` / `reqwest::Client::get ... send`)
  is an `HttpResult`: either a response with a numeric status, or a transport
  error (connection failure and timeout both surface as `Err(_)` in reqwest,
  hence both are `HttpResult.err`).
* The nondeterminism of the outside world (HTTP responses, spawn success,
  kill success) is packaged in an `Env` oracle.  The k-th health probe of a
  call reads `env.http k` (respectively `env.mcpHttp k`); whether spawning a
  given command name succeeds reads `env.spawnOk`.
* `lib.rs` `run()` calls `.manage` for `Mutex<AppState>`, `Mutex<ServerProcess>`
  and `Mutex<McpProcess>` before any command can run, so `try_state` always
  finds the state; locks are only ever held for a plain field access, so lock
  acquisition is modelled as always succeeding.  The three managed cells are
  collected in a `World` record that each operation threads through.
* Each operation returns an `Out`: its return value, the new `World`, the
  ordered list of `emit`-ted events `(event-name, payload)`, the number of
  health probes it performed, and the number of `spawn()` calls it attempted.
* `tokio::time::sleep` has no observable effect in this model beyond probe
  ordering, hence it is dropped.
-/

namespace Achilles

/-- Result of one HTTP request: a response carrying a status code, or a
transport error / timeout (reqwest folds timeouts into `Err`). -/
inductive HttpResult where
  | ok (status : Nat)
  | err
deriving DecidableEq, Repr

/-- Semantics of `reqwest::StatusCode::is_success`: status in the 2xx range (200..=299). -/
def isSuccess (s : Nat) : Bool :=
  200 ≤ s && s < 300

/-- Structure `AppState` from `lib.rs` (the Service State shared cell). -/
structure AppState where
  server_running : Bool
  server_port : Nat
  api_url : String
  mcp_running : Bool
  mcp_port : Nat
  mcp_url : String
deriving DecidableEq, Repr

/-- Structure `ServerProcess` from `server.rs`: registry slot for the backend child.
A child handle is identified by a tag recording which spawn produced it. -/
structure ServerProcess where
  child : Option Nat
deriving DecidableEq, Repr

/-- Structure `McpProcess` from `server.rs`: registry slot for the MCP child. -/
structure McpProcess where
  child : Option Nat
deriving DecidableEq, Repr

/-- The three `.manage`d cells of the Tauri app, threaded explicitly. -/
structure World where
  appState : AppState
  serverProc : ServerProcess
  mcpProc : McpProcess
deriving DecidableEq, Repr

/-- Oracle for the outside world during one operation. -/
structure Env where
  /-- response of the k-th backend health probe performed by the call -/
  http : Nat → HttpResult
  /-- response of the k-th MCP probe performed by the call -/
  mcpHttp : Nat → HttpResult
  /-- whether `shell.sidecar("achilles-server")` resolves the sidecar command -/
  sidecarCmdOk : Bool
  /-- whether spawning the sidecar succeeds -/
  sidecarSpawnOk : Bool
  /-- whether `shell.command(name)...spawn()` succeeds for a command name -/
  spawnOk : String → Bool
  /-- whether `child.kill()` succeeds -/
  killOk : Bool
  /-- the message of the kill error, when `killOk = false` -/
  killErrMsg : String

/-- Result of running one operation of the supervisor. -/
structure Out (α : Type) where
  ret : α
  world : World
  /-- events emitted via `app.emit`, in order: (event name, payload) -/
  events : List (String × String)
  /-- number of health probes (HTTP requests to a health endpoint) performed -/
  probes : Nat
  /-- number of `spawn()` calls attempted -/
  spawns : Nat

/-- Function `check_health` from `server.rs`: `Ok(resp) => resp.status().is_success()`,
`Err(_) => false`. -/
def check_health (r : HttpResult) : Bool :=
  match r with
  | .ok s => isSuccess s
  | .err => false

/-- Function `check_mcp_port` from `server.rs`: a GET with a 2 s timeout;
`Ok(resp) => resp.status().is_success()`, `Err(_) => false` (a timeout is an
`Err` of the request, hence `HttpResult.err`). -/
def check_mcp_port (r : HttpResult) : Bool :=
  match r with
  | .ok s => isSuccess s
  | .err => false

/-- Function `update_state` from `server.rs`: sets `AppState.server_running`. -/
def update_state (w : World) (running : Bool) : World :=
  { w with appState := { w.appState with server_running := running } }

/-- Function `update_mcp_state` from `server.rs`: sets `AppState.mcp_running`. -/
def update_mcp_state (w : World) (running : Bool) : World :=
  { w with appState := { w.appState with mcp_running := running } }

/-- Store a child handle in the `ServerProcess` registry slot. -/
def setServerChild (w : World) (c : Option Nat) : World :=
  { w with serverProc := { child := c } }

/-- Store a child handle in the `McpProcess` registry slot. -/
def setMcpChild (w : World) (c : Option Nat) : World :=
  { w with mcpProc := { child := c } }

/-- The bounded poll loop `for _ in 0..n { sleep; if probe { ... } }`:
probes `health start`, `health (start+1)`, ... up to `n` times, stopping at the
first `true`.  Returns (whether a probe succeeded, how many probes were made). -/
def pollHealth (health : Nat → Bool) (start : Nat) : Nat → Bool × Nat
  | 0 => (false, 0)
  | n + 1 =>
      if health start then (true, 1)
      else
        let r := pollHealth health (start + 1) n
        (r.1, r.2 + 1)

/-- Function `do_start_server` from `server.rs` (lines 97-127): one idempotence health
probe; if healthy, commit running=true and return `Ok` (no spawn, no event).
Otherwise try to spawn `python3` then `python`; on the first successful spawn
store the child and return `Ok` immediately (no polling, no state change, no
event).  If neither spawns, return a descriptive error (no event). -/
def do_start_server (env : Env) (w : World) : Out (Except String Unit) :=
  if check_health (env.http 0) then
    { ret := .ok (), world := update_state w true, events := [],
      probes := 1, spawns := 0 }
  else if env.spawnOk "python3" then
    { ret := .ok (), world := setServerChild w (some 0), events := [],
      probes := 1, spawns := 1 }
  else if env.spawnOk "python" then
    { ret := .ok (), world := setServerChild w (some 1), events := [],
      probes := 1, spawns := 2 }
  else
    { ret := .error "Could not find python3 or python. Please install Python 3.11+.",
      world := w, events := [], probes := 1, spawns := 2 }

/-- Function `do_stop_server` from `server.rs` (lines 129-140): `take()` the child out
of the registry; if one was present, `kill()` it, and on kill failure the `?`
operator returns the error immediately — skipping both `update_state(false)`
and the `"stopped"` emission.  Otherwise set running=false and emit
`("server-status","stopped")`. -/
def do_stop_server (env : Env) (w : World) : Out (Except String Unit) :=
  match w.serverProc.child with
  | some _ =>
      let w1 := setServerChild w none
      if env.killOk then
        { ret := .ok (), world := update_state w1 false,
          events := [("server-status", "stopped")], probes := 0, spawns := 0 }
      else
        { ret := .error env.killErrMsg, world := w1, events := [],
          probes := 0, spawns := 0 }
  | none =>
      { ret := .ok (), world := update_state w false,
        events := [("server-status", "stopped")], probes := 0, spawns := 0 }

/-- Function `start_with_python` from `server.rs` (lines 58-95): for each of
`python3`, `python`: try to spawn; on success store the child and poll health
up to 15 times (1 s interval); the first healthy probe commits running=true,
emits `("server-status","running")` and returns.  A spawned command whose 15
probes all fail falls through to the next command.  After the loop over both
commands, emit `("server-status","failed")` (running flag untouched). -/
def start_with_python (env : Env) (w : World) : Out Unit :=
  if env.spawnOk "python3" then
    let w1 := setServerChild w (some 10)
    let r1 := pollHealth (fun k => check_health (env.http k)) 0 15
    if r1.1 then
      { ret := (), world := update_state w1 true,
        events := [("server-status", "running")], probes := r1.2, spawns := 1 }
    else if env.spawnOk "python" then
      let w2 := setServerChild w1 (some 11)
      let r2 := pollHealth (fun k => check_health (env.http k)) 15 15
      if r2.1 then
        { ret := (), world := update_state w2 true,
          events := [("server-status", "running")], probes := 15 + r2.2, spawns := 2 }
      else
        { ret := (), world := w2, events := [("server-status", "failed")],
          probes := 15 + r2.2, spawns := 2 }
    else
      { ret := (), world := w1, events := [("server-status", "failed")],
        probes := 15, spawns := 2 }
  else if env.spawnOk "python" then
    let w1 := setServerChild w (some 11)
    let r1 := pollHealth (fun k => check_health (env.http k)) 0 15
    if r1.1 then
      { ret := (), world := update_state w1 true,
        events := [("server-status", "running")], probes := r1.2, spawns := 2 }
    else
      { ret := (), world := w1, events := [("server-status", "failed")],
        probes := r1.2, spawns := 2 }
  else
    { ret := (), world := w, events := [("server-status", "failed")],
      probes := 0, spawns := 2 }

/-- Function `start_sidecar` from `server.rs` (lines 28-56): resolve the sidecar
command (on failure return `false`); spawn it (on failure return `false`);
store the child, sleep 3 s, then one health probe: if healthy, commit
running=true, emit `("server-status","running")` and return `true`, else
return `false` (child stays stored, flag untouched, no event). -/
def start_sidecar (env : Env) (w : World) : Out Bool :=
  if !env.sidecarCmdOk then
    { ret := false, world := w, events := [], probes := 0, spawns := 0 }
  else if env.sidecarSpawnOk then
    let w1 := setServerChild w (some 12)
    if check_health (env.http 0) then
      { ret := true, world := update_state w1 true,
        events := [("server-status", "running")], probes := 1, spawns := 1 }
    else
      { ret := false, world := w1, events := [], probes := 1, spawns := 1 }
  else
    { ret := false, world := w, events := [], probes := 0, spawns := 1 }

/-- Function `start_backend_server` from `server.rs` (lines 18-26): try the sidecar;
if that did not reach a healthy state, fall back to `start_with_python`.
The fallback's probes continue after the sidecar's in the `env.http` stream. -/
def start_backend_server (env : Env) (w : World) : Out Unit :=
  let s := start_sidecar env w
  if s.ret then
    { ret := (), world := s.world, events := s.events,
      probes := s.probes, spawns := s.spawns }
  else
    let env1 : Env := { env with http := fun k => env.http (k + s.probes) }
    let p := start_with_python env1 s.world
    { ret := (), world := p.world, events := s.events ++ p.events,
      probes := s.probes + p.probes, spawns := s.spawns + p.spawns }

/-- Function `do_start_mcp` from `server.rs` (lines 160-200): one idempotence probe of
the MCP port; if healthy, commit mcp running=true and return `Ok` (no spawn,
no event).  Otherwise try `python3` then `python`; on the first successful
spawn store the child and poll up to 10 times: a healthy probe commits
running=true, emits `("mcp-status","running")` and returns `Ok`; exhausting
the 10 polls returns `Ok` with no event and no state change.  If neither
command spawns, return a descriptive error (no event). -/
def do_start_mcp (env : Env) (w : World) : Out (Except String Unit) :=
  if check_mcp_port (env.mcpHttp 0) then
    { ret := .ok (), world := update_mcp_state w true, events := [],
      probes := 1, spawns := 0 }
  else if env.spawnOk "python3" then
    let w1 := setMcpChild w (some 20)
    let r := pollHealth (fun k => check_mcp_port (env.mcpHttp k)) 1 10
    if r.1 then
      { ret := .ok (), world := update_mcp_state w1 true,
        events := [("mcp-status", "running")], probes := 1 + r.2, spawns := 1 }
    else
      { ret := .ok (), world := w1, events := [], probes := 1 + r.2, spawns := 1 }
  else if env.spawnOk "python" then
    let w1 := setMcpChild w (some 21)
    let r := pollHealth (fun k => check_mcp_port (env.mcpHttp k)) 1 10
    if r.1 then
      { ret := .ok (), world := update_mcp_state w1 true,
        events := [("mcp-status", "running")], probes := 1 + r.2, spawns := 2 }
    else
      { ret := .ok (), world := w1, events := [], probes := 1 + r.2, spawns := 2 }
  else
    { ret := .error "Could not find python3 or python to start MCP server.",
      world := w, events := [], probes := 1, spawns := 2 }

/-- Function `do_stop_mcp` from `server.rs` (lines 202-213): mirror of
`do_stop_server` for the MCP registry slot, flag and event channel. -/
def do_stop_mcp (env : Env) (w : World) : Out (Except String Unit) :=
  match w.mcpProc.child with
  | some _ =>
      let w1 := setMcpChild w none
      if env.killOk then
        { ret := .ok (), world := update_mcp_state w1 false,
          events := [("mcp-status", "stopped")], probes := 0, spawns := 0 }
      else
        { ret := .error env.killErrMsg, world := w1, events := [],
          probes := 0, spawns := 0 }
  | none =>
      { ret := .ok (), world := update_mcp_state w false,
        events := [("mcp-status", "stopped")], probes := 0, spawns := 0 }

/-- Function `get_server_status` from `lib.rs` (lines 17-21): lock the state and
return `server_running`.  No HTTP request, no mutation, no event. -/
def get_server_status (w : World) : Out (Except String Bool) :=
  { ret := .ok w.appState.server_running, world := w, events := [],
    probes := 0, spawns := 0 }

/-- Function `get_api_url` from `lib.rs` (lines 23-27): lock the state and return a
clone of `api_url`.  No HTTP request, no mutation, no event. -/
def get_api_url (w : World) : Out (Except String String) :=
  { ret := .ok w.appState.api_url, world := w, events := [],
    probes := 0, spawns := 0 }

/-- Function `check_server_health` from `lib.rs` (lines 29-39): read `api_url`, issue
one GET on its `/health` path, and return `Ok(is_success)` on a response and
`Ok(false)` on any request error — the HTTP error is never propagated.  The
state is read but never written. -/
def check_server_health (env : Env) (w : World) : Out (Except String Bool) :=
  { ret := .ok (match env.http 0 with
                | .ok s => isSuccess s
                | .err => false),
    world := w, events := [], probes := 1, spawns := 0 }


/-! Helper lemmas about the bounded poll loop. -/

/-- When every probe fails, the poll loop exhausts its whole budget and
reports failure. -/
theorem pollHealth_all_false (h : Nat → Bool) (hf : ∀ k, h k = false) :
    ∀ n s, pollHealth h s n = (false, n) := by
  intro n
  induction n with
  | zero => intro s; rfl
  | succ n ih =>
      intro s
      simp only [pollHealth, hf s, if_neg]
      simp [ih (s + 1)]

/-- The poll loop never makes more probes than its budget. -/
theorem pollHealth_probes_le (h : Nat → Bool) :
    ∀ n s, (pollHealth h s n).2 ≤ n := by
  intro n
  induction n with
  | zero => intro s; simp [pollHealth]
  | succ n ih =>
      intro s
      by_cases hs : h s = true
      · simp [pollHealth, hs]
      · simp only [pollHealth, hs, if_neg, Bool.false_eq_true, not_false_iff]
        simpa using Nat.succ_le_succ (ih (s + 1))

/-- When the poll loop reports success, some probe among the ones it made
returned `true`. -/
theorem pollHealth_success (h : Nat → Bool) :
    ∀ n s, (pollHealth h s n).1 = true →
      ∃ j, s ≤ j ∧ j < s + (pollHealth h s n).2 ∧ h j = true := by
  intro n
  induction n with
  | zero => intro s hc; simp [pollHealth] at hc
  | succ n ih =>
      intro s hc
      by_cases hs : h s = true
      · refine ⟨s, Nat.le_refl s, ?_, hs⟩
        simp [pollHealth, hs]
      · simp only [pollHealth, hs, if_neg, Bool.false_eq_true, not_false_iff] at hc ⊢
        obtain ⟨j, hj1, hj2, hj3⟩ := ih (s + 1) hc
        exact ⟨j, Nat.le_of_succ_le hj1, by omega, hj3⟩

/-! Concrete fixtures used by witnesses and counterexamples. -/

/-- The initial `AppState` as `.manage`d in `lib.rs` `run()`. -/
def appState0 : AppState :=
  { server_running := false, server_port := 8900,
    api_url := "http://127.0.0.1:8900", mcp_running := false,
    mcp_port := 8901, mcp_url := "http://127.0.0.1:8901" }

/-- The initial world: fresh state, empty registry slots. -/
def w0 : World :=
  { appState := appState0, serverProc := { child := none },
    mcpProc := { child := none } }

/-- A world in which both services hold a child handle and both flags are up. -/
def wChild : World :=
  { appState := { appState0 with server_running := true, mcp_running := true },
    serverProc := { child := some 5 }, mcpProc := { child := some 6 } }

/-- Environment: every health probe errors out (service never healthy),
every spawn succeeds, kills succeed. -/
def envDown : Env :=
  { http := fun _ => HttpResult.err, mcpHttp := fun _ => HttpResult.err,
    sidecarCmdOk := true, sidecarSpawnOk := true,
    spawnOk := fun _ => true, killOk := true, killErrMsg := "" }

/-- Environment: every health probe answers 200 OK. -/
def envUp : Env :=
  { http := fun _ => HttpResult.ok 200, mcpHttp := fun _ => HttpResult.ok 200,
    sidecarCmdOk := true, sidecarSpawnOk := true,
    spawnOk := fun _ => true, killOk := true, killErrMsg := "" }

/-- Environment: probes answer 200 OK but `child.kill()` fails. -/
def envKillFail : Env :=
  { http := fun _ => HttpResult.ok 200, mcpHttp := fun _ => HttpResult.ok 200,
    sidecarCmdOk := true, sidecarSpawnOk := true,
    spawnOk := fun _ => true, killOk := false,
    killErrMsg := "No such process (os error 3)" }

/-- Environment: probes error out and no interpreter can be spawned. -/
def envNoPython : Env :=
  { http := fun _ => HttpResult.err, mcpHttp := fun _ => HttpResult.err,
    sidecarCmdOk := false, sidecarSpawnOk := false,
    spawnOk := fun _ => false, killOk := true, killErrMsg := "" }


/-! Claim theorems. -/

/-- Claim C4 (confirmed): a `start` call issued while the service's health
probe already reports healthy invokes no launch strategy (zero spawn calls),
commits the running flag to true, and returns success — for both
`do_start_server` and `do_start_mcp`. -/
theorem C4_no_duplicate_spawn (env : Env) (w : World)
    (hs : check_health (env.http 0) = true)
    (hm : check_mcp_port (env.mcpHttp 0) = true) :
    (do_start_server env w).spawns = 0 ∧
    (do_start_server env w).ret = Except.ok () ∧
    (do_start_server env w).world.appState.server_running = true ∧
    (do_start_mcp env w).spawns = 0 ∧
    (do_start_mcp env w).ret = Except.ok () ∧
    (do_start_mcp env w).world.appState.mcp_running = true := by
  unfold do_start_server do_start_mcp
  simp [hs, hm, update_state, update_mcp_state]

/-- Witness for C4 at a concrete healthy environment. -/
theorem C4_witness :
    (do_start_server envUp w0).spawns = 0 ∧
    (do_start_server envUp w0).ret = Except.ok () ∧
    (do_start_server envUp w0).world.appState.server_running = true ∧
    (do_start_mcp envUp w0).spawns = 0 ∧
    (do_start_mcp envUp w0).ret = Except.ok () ∧
    (do_start_mcp envUp w0).world.appState.mcp_running = true :=
  C4_no_duplicate_spawn envUp w0 (by decide) (by decide)

/-- Claim C5 (confirmed): stopping a service whose registry slot holds no
child handle succeeds, sets the running flag to false and emits a
`"stopped"` notification, for every prior state. -/
theorem C5_idempotent_stop (env : Env) (w : World)
    (hs : w.serverProc.child = none) (hm : w.mcpProc.child = none) :
    (do_stop_server env w).ret = Except.ok () ∧
    (do_stop_server env w).world.appState.server_running = false ∧
    (do_stop_server env w).events = [("server-status", "stopped")] ∧
    (do_stop_mcp env w).ret = Except.ok () ∧
    (do_stop_mcp env w).world.appState.mcp_running = false ∧
    (do_stop_mcp env w).events = [("mcp-status", "stopped")] := by
  unfold do_stop_server do_stop_mcp
  rw [hs, hm]
  simp [update_state, update_mcp_state]

/-- Witness for C5 at the initial world (both registry slots empty). -/
theorem C5_witness :
    (do_stop_server envDown w0).ret = Except.ok () ∧
    (do_stop_server envDown w0).world.appState.server_running = false ∧
    (do_stop_server envDown w0).events = [("server-status", "stopped")] ∧
    (do_stop_mcp envDown w0).ret = Except.ok () ∧
    (do_stop_mcp envDown w0).world.appState.mcp_running = false ∧
    (do_stop_mcp envDown w0).events = [("mcp-status", "stopped")] :=
  C5_idempotent_stop envDown w0 rfl rfl

/-- Claim C7 (confirmed): the health probes are total boolean reductions:
`check_health` answers true iff the response status is in the 2xx success
range and false on any transport error or timeout (an `Err` of the request);
`check_mcp_port` computes the same reduction; and `check_server_health`
always returns `Ok` of that boolean — the underlying HTTP error is never
propagated, and the shared state is untouched. -/
theorem C7_probe_total (r : HttpResult) (env : Env) (w : World) :
    (check_health r = true ↔ ∃ s, r = HttpResult.ok s ∧ 200 ≤ s ∧ s < 300) ∧
    check_health HttpResult.err = false ∧
    check_mcp_port r = check_health r ∧
    (check_server_health env w).ret = Except.ok (check_health (env.http 0)) ∧
    (check_server_health env w).world = w := by
  refine ⟨?_, rfl, ?_, rfl, rfl⟩
  · cases r with
    | ok s => simp [check_health, isSuccess, Nat.lt_iff_add_one_le]
    | err => simp [check_health]
  · cases r <;> rfl

/-- Witness for C7 at a concrete 200 response and a concrete error. -/
theorem C7_witness :
    check_health (HttpResult.ok 200) = true ∧
    check_health HttpResult.err = false := by
  have h := C7_probe_total (HttpResult.ok 200) envUp w0
  exact ⟨h.1.mpr ⟨200, rfl, Nat.le_refl 200, by omega⟩, h.2.1⟩

/-- Claim C9 (confirmed): `get_server_status` and `get_api_url` are pure
reads — no probe, no event, state returned unchanged, answering from the
stored `AppState` — and the live probe `check_server_health` mutates no
field of the shared state. -/
theorem C9_pure_reads (env : Env) (w : World) :
    (get_server_status w).world = w ∧
    (get_server_status w).probes = 0 ∧
    (get_server_status w).events = [] ∧
    (get_server_status w).ret = Except.ok w.appState.server_running ∧
    (get_api_url w).world = w ∧
    (get_api_url w).probes = 0 ∧
    (get_api_url w).events = [] ∧
    (get_api_url w).ret = Except.ok w.appState.api_url ∧
    (check_server_health env w).world = w :=
  ⟨rfl, rfl, rfl, rfl, rfl, rfl, rfl, rfl, rfl⟩

/-- Witness for C9 at a concrete world. -/
theorem C9_witness :
    (get_server_status wChild).world = wChild ∧
    (get_server_status wChild).ret = Except.ok true ∧
    (check_server_health envUp wChild).world = wChild := by
  have h := C9_pure_reads envUp wChild
  exact ⟨h.1, h.2.2.2.1, h.2.2.2.2.2.2.2.2⟩

/-- Claim C10 (confirmed): after every return of a stop call — `Ok` or
error — the registry slot for that service holds no child handle: the
handle is `take`n out before termination is attempted, so a failed kill
still leaves the registry empty. -/
theorem C10_registry_cleared (env : Env) (w : World) :
    (do_stop_server env w).world.serverProc.child = none ∧
    (do_stop_mcp env w).world.mcpProc.child = none := by
  unfold do_stop_server do_stop_mcp
  constructor
  · cases hc : w.serverProc.child <;>
      cases hk : env.killOk <;>
      simp [hc, update_state, setServerChild]
  · cases hc : w.mcpProc.child <;>
      cases hk : env.killOk <;>
      simp [hc, update_mcp_state, setMcpChild]

/-- Witness for C10 at a world with live handles and a failing kill (the
error-return path of both stop calls). -/
theorem C10_witness :
    (do_stop_server envKillFail wChild).world.serverProc.child = none ∧
    (do_stop_mcp envKillFail wChild).world.mcpProc.child = none :=
  C10_registry_cleared envKillFail wChild


/-- Claim C2 counterexample: with a live child handle and a failing
`kill()`, `do_stop_server` returns the error and — contrary to the claim —
does NOT set the running flag to false and does NOT emit a `"stopped"`
notification: the `?` operator returns before `update_state` and `emit`. -/
theorem C2_counterexample :
    (do_stop_server envKillFail wChild).ret =
      Except.error "No such process (os error 3)" ∧
    (do_stop_server envKillFail wChild).world.appState.server_running = true ∧
    (do_stop_server envKillFail wChild).events = [] :=
  ⟨rfl, rfl, rfl⟩

/-- Claim C2 amended: when no handle is present or termination succeeds, a
stop call sets the running flag to false, emits `"stopped"`, and returns
`Ok`; but when termination fails, the error is returned immediately and
both the flag update and the notification are skipped — the `AppState` is
returned unchanged. -/
theorem C2_amended (env : Env) (w : World) :
    ((w.serverProc.child = none ∨ env.killOk = true) →
        (do_stop_server env w).world.appState.server_running = false ∧
        (do_stop_server env w).events = [("server-status", "stopped")] ∧
        (do_stop_server env w).ret = Except.ok ()) ∧
    (w.serverProc.child ≠ none → env.killOk = false →
        (do_stop_server env w).ret = Except.error env.killErrMsg ∧
        (do_stop_server env w).events = [] ∧
        (do_stop_server env w).world.appState = w.appState) ∧
    ((w.mcpProc.child = none ∨ env.killOk = true) →
        (do_stop_mcp env w).world.appState.mcp_running = false ∧
        (do_stop_mcp env w).events = [("mcp-status", "stopped")] ∧
        (do_stop_mcp env w).ret = Except.ok ()) ∧
    (w.mcpProc.child ≠ none → env.killOk = false →
        (do_stop_mcp env w).ret = Except.error env.killErrMsg ∧
        (do_stop_mcp env w).events = [] ∧
        (do_stop_mcp env w).world.appState = w.appState) := by
  unfold do_stop_server do_stop_mcp
  refine ⟨?_, ?_, ?_, ?_⟩ <;>
    cases hcs : w.serverProc.child <;>
    cases hcm : w.mcpProc.child <;>
    cases hk : env.killOk <;>
    simp [hcs, hcm, update_state, update_mcp_state, setServerChild, setMcpChild]

/-- Witness for the amended C2, exercising both the success path (empty
registry) and the kill-failure path (live handle, failing kill). -/
theorem C2_witness :
    ((do_stop_server envUp w0).world.appState.server_running = false ∧
     (do_stop_server envUp w0).events = [("server-status", "stopped")] ∧
     (do_stop_server envUp w0).ret = Except.ok ()) ∧
    ((do_stop_mcp envKillFail wChild).ret =
        Except.error "No such process (os error 3)" ∧
     (do_stop_mcp envKillFail wChild).events = [] ∧
     (do_stop_mcp envKillFail wChild).world.appState = wChild.appState) :=
  ⟨(C2_amended envUp w0).1 (Or.inl rfl),
   (C2_amended envKillFail wChild).2.2.2 (by simp [wChild]) rfl⟩

/-- Claim C8 counterexample: when neither `python3` nor `python` can be
spawned (and the service is not already healthy), `do_start_server` returns
the descriptive error but — contrary to the claim — emits NO
`"failed"` notification. -/
theorem C8_counterexample :
    (do_start_server envNoPython w0).ret =
      Except.error "Could not find python3 or python. Please install Python 3.11+." ∧
    (do_start_server envNoPython w0).events = [] :=
  ⟨rfl, rfl⟩

/-- Claim C8 amended: when every launch strategy fails to spawn,
`do_start_server` and `do_start_mcp` return a descriptive error, leave the
world (including the running flags) unchanged, but emit no notification;
only the startup-path `start_with_python` emits the `"failed"`
notification, and it returns no error (its return type is unit). -/
theorem C8_amended (env : Env) (w : World)
    (h3 : env.spawnOk "python3" = false)
    (hp : env.spawnOk "python" = false)
    (hh : check_health (env.http 0) = false)
    (hm : check_mcp_port (env.mcpHttp 0) = false) :
    ((do_start_server env w).ret =
        Except.error "Could not find python3 or python. Please install Python 3.11+." ∧
     (do_start_server env w).events = [] ∧
     (do_start_server env w).world = w) ∧
    ((do_start_mcp env w).ret =
        Except.error "Could not find python3 or python to start MCP server." ∧
     (do_start_mcp env w).events = [] ∧
     (do_start_mcp env w).world = w) ∧
    ((start_with_python env w).events = [("server-status", "failed")] ∧
     (start_with_python env w).world = w) := by
  unfold do_start_server do_start_mcp start_with_python
  simp [h3, hp, hh, hm]

/-- Witness for the amended C8 in the no-interpreter environment. -/
theorem C8_witness :
    ((do_start_server envNoPython w0).ret =
        Except.error "Could not find python3 or python. Please install Python 3.11+." ∧
     (do_start_server envNoPython w0).events = [] ∧
     (do_start_server envNoPython w0).world = w0) ∧
    ((do_start_mcp envNoPython w0).ret =
        Except.error "Could not find python3 or python to start MCP server." ∧
     (do_start_mcp envNoPython w0).events = [] ∧
     (do_start_mcp envNoPython w0).world = w0) ∧
    ((start_with_python envNoPython w0).events = [("server-status", "failed")] ∧
     (start_with_python envNoPython w0).world = w0) :=
  C8_amended envNoPython w0 rfl rfl rfl rfl


/-- Claim C1 counterexample: with the MCP health probe never answering
healthy and `python3` spawnable, `do_start_mcp` exhausts its poll budget
and then — contrary to the claim — emits NO `"failed"` notification at
all: it returns `Ok(())` with an empty event list (11 probes: one
idempotence check plus the 10 polls). -/
theorem C1_counterexample :
    envDown.mcpHttp = (fun _ => HttpResult.err) ∧
    (do_start_mcp envDown w0).ret = Except.ok () ∧
    (do_start_mcp envDown w0).events = [] ∧
    (do_start_mcp envDown w0).probes = 11 ∧
    (do_start_mcp envDown w0).world.appState.mcp_running = false :=
  ⟨rfl, rfl, rfl, rfl, rfl⟩

/-- Claim C1 amended: polling is always bounded, but the failure reporting
differs per service.  If health never becomes true, `start_with_python`
performs 15 probes per successfully spawned interpreter candidate (two
candidates, hence at most 30 and exactly 30 when both spawn), then emits a
`"failed"` notification, leaving the running flag unchanged; `do_start_mcp`
performs at most 11 probes (one idempotence check plus exactly 10 polls
after the first successful spawn) and then returns `Ok` WITHOUT emitting
any notification, leaving the running flag unchanged.  Neither polls
indefinitely. -/
theorem C1_amended (env : Env) (w : World)
    (hs : ∀ k, check_health (env.http k) = false)
    (hm : ∀ k, check_mcp_port (env.mcpHttp k) = false) :
    ((start_with_python env w).probes ≤ 30 ∧
     (start_with_python env w).events = [("server-status", "failed")] ∧
     (start_with_python env w).world.appState.server_running =
       w.appState.server_running) ∧
    ((do_start_mcp env w).probes ≤ 11 ∧
     (do_start_mcp env w).events = [] ∧
     (do_start_mcp env w).world.appState.mcp_running = w.appState.mcp_running) ∧
    (env.spawnOk "python3" = true → env.spawnOk "python" = true →
        (start_with_python env w).probes = 30) ∧
    (env.spawnOk "python3" = true →
        (do_start_mcp env w).probes = 11 ∧
        (do_start_mcp env w).ret = Except.ok ()) := by
  have hps : ∀ n s, pollHealth (fun k => check_health (env.http k)) s n = (false, n) :=
    fun n s => pollHealth_all_false _ (fun k => hs k) n s
  have hpm : ∀ n s, pollHealth (fun k => check_mcp_port (env.mcpHttp k)) s n = (false, n) :=
    fun n s => pollHealth_all_false _ (fun k => hm k) n s
  unfold start_with_python do_start_mcp
  cases h3 : env.spawnOk "python3" <;> cases hp : env.spawnOk "python" <;>
    simp [h3, hp, hs 0, hm 0, hps, hpm, setServerChild, setMcpChild]

/-- Witness for the amended C1 in the never-healthy environment with both
interpreters spawnable. -/
theorem C1_witness :
    (start_with_python envDown w0).probes = 30 ∧
    (start_with_python envDown w0).events = [("server-status", "failed")] ∧
    (do_start_mcp envDown w0).probes = 11 ∧
    (do_start_mcp envDown w0).ret = Except.ok () := by
  have h := C1_amended envDown w0 (fun k => rfl) (fun k => rfl)
  exact ⟨h.2.2.1 rfl rfl, h.1.2.1, (h.2.2.2 rfl).1, (h.2.2.2 rfl).2⟩

/-- Claim C3 counterexample: start from the fresh world, stop the backend
(emitting `"stopped"`), then start it while its health probe already
answers healthy.  The start call completes with `Ok`, sets the running flag
to true, but emits nothing — so `get_server_status` answers true while the
last notification emitted for the service is `"stopped"`, which implies
false. -/
theorem C3_counterexample :
    (do_stop_server envUp w0).events = [("server-status", "stopped")] ∧
    (do_start_server envUp (do_stop_server envUp w0).world).ret = Except.ok () ∧
    (do_start_server envUp (do_stop_server envUp w0).world).events = [] ∧
    (get_server_status
        (do_start_server envUp (do_stop_server envUp w0).world).world).ret =
      Except.ok true :=
  ⟨rfl, rfl, rfl, rfl⟩

/-- Claim C3 amended: the flag agrees with the notification for every call
that emits one — a stop call returning `Ok` leaves the flag false and its
(only) notification is `"stopped"`; a start call that emits `"running"`
leaves the flag true; a `start_with_python` run that emits `"failed"`
leaves the flag at its prior value.  But start paths that emit no
notification (`do_start_server` always, and `do_start_mcp` on its
already-healthy and budget-exhausted paths) update or keep the flag
silently, so after such a call `get_status` may disagree with the last
previously emitted notification. -/
theorem C3_amended (env : Env) (w : World) :
    ((do_stop_server env w).ret = Except.ok () →
        (get_server_status (do_stop_server env w).world).ret = Except.ok false ∧
        (do_stop_server env w).events = [("server-status", "stopped")]) ∧
    ((do_stop_mcp env w).ret = Except.ok () →
        (do_stop_mcp env w).world.appState.mcp_running = false ∧
        (do_stop_mcp env w).events = [("mcp-status", "stopped")]) ∧
    (("server-status", "running") ∈ (start_with_python env w).events →
        (get_server_status (start_with_python env w).world).ret =
          Except.ok true) ∧
    (("server-status", "failed") ∈ (start_with_python env w).events →
        (start_with_python env w).world.appState.server_running =
          w.appState.server_running) ∧
    (("mcp-status", "running") ∈ (do_start_mcp env w).events →
        (do_start_mcp env w).world.appState.mcp_running = true) := by
  refine ⟨?_, ?_, ?_, ?_, ?_⟩
  · unfold do_stop_server
    cases hc : w.serverProc.child <;> cases hk : env.killOk <;>
      simp [get_server_status, update_state, setServerChild]
  · unfold do_stop_mcp
    cases hc : w.mcpProc.child <;> cases hk : env.killOk <;>
      simp [update_mcp_state, setMcpChild]
  · unfold start_with_python
    cases h3 : env.spawnOk "python3" <;> cases hp : env.spawnOk "python" <;>
      simp only [h3, hp, Bool.false_eq_true, if_true, if_false] <;>
      (try split) <;> (try split) <;>
      simp [get_server_status, update_state, setServerChild]
  · unfold start_with_python
    cases h3 : env.spawnOk "python3" <;> cases hp : env.spawnOk "python" <;>
      simp only [h3, hp, Bool.false_eq_true, if_true, if_false] <;>
      (try split) <;> (try split) <;>
      simp [update_state, setServerChild]
  · unfold do_start_mcp
    by_cases h0 : check_mcp_port (env.mcpHttp 0) = true
    · simp [h0, update_mcp_state]
    · cases h3 : env.spawnOk "python3" <;> cases hp : env.spawnOk "python" <;>
        simp only [h0, h3, hp, Bool.false_eq_true, if_true, if_false, if_neg,
          not_false_iff] <;>
        (try split) <;>
        simp [h0, update_mcp_state, setMcpChild]

/-- Witness for the amended C3: the stop path and a successful polled start
in the all-healthy environment. -/
theorem C3_witness :
    ((get_server_status (do_stop_server envUp w0).world).ret = Except.ok false ∧
     (do_stop_server envUp w0).events = [("server-status", "stopped")]) ∧
    (get_server_status (start_with_python envUp w0).world).ret =
      Except.ok true := by
  have h := C3_amended envUp w0
  exact ⟨h.1 rfl, h.2.2.1 (by decide)⟩


/-- Claim C6 (confirmed): starting from a world whose flags are down, a
start operation ends with the running flag true only when a health probe of
that service returned true during the call — for `do_start_server` and
`start_sidecar` that probe is the single one they make, and for
`start_with_python` and `do_start_mcp` some probe among those the call
performed returned true.  A spawn call returning successfully never raises
the flag by itself. -/
theorem C6_running_only_after_probe (env : Env) (w : World)
    (hw : w.appState.server_running = false)
    (hwm : w.appState.mcp_running = false) :
    ((do_start_server env w).world.appState.server_running = true →
        check_health (env.http 0) = true) ∧
    ((start_sidecar env w).world.appState.server_running = true →
        check_health (env.http 0) = true) ∧
    ((start_with_python env w).world.appState.server_running = true →
        ∃ j, j < (start_with_python env w).probes ∧
          check_health (env.http j) = true) ∧
    ((do_start_mcp env w).world.appState.mcp_running = true →
        ∃ j, j < (do_start_mcp env w).probes ∧
          check_mcp_port (env.mcpHttp j) = true) := by
  refine ⟨?_, ?_, ?_, ?_⟩
  · unfold do_start_server
    by_cases h0 : check_health (env.http 0) = true
    · intro _; exact h0
    · cases h3 : env.spawnOk "python3" <;> cases hp : env.spawnOk "python" <;>
        simp [h0, h3, hp, setServerChild, hw]
  · unfold start_sidecar
    by_cases h0 : check_health (env.http 0) = true
    · intro _; exact h0
    · cases hc : env.sidecarCmdOk <;> cases hsp : env.sidecarSpawnOk <;>
        simp [h0, hc, hsp, setServerChild, hw]
  · unfold start_with_python
    by_cases hr1 : (pollHealth (fun k => check_health (env.http k)) 0 15).1 = true
    · obtain ⟨j, hj0, hjlt, hjt⟩ := pollHealth_success _ 15 0 hr1
      cases h3 : env.spawnOk "python3" <;> cases hp : env.spawnOk "python" <;>
        simp [h3, hp, hr1, update_state, setServerChild, hw] <;>
        exact ⟨j, by omega, hjt⟩
    · by_cases hr2 : (pollHealth (fun k => check_health (env.http k)) 15 15).1 = true
      · obtain ⟨j, hj0, hjlt, hjt⟩ := pollHealth_success _ 15 15 hr2
        cases h3 : env.spawnOk "python3" <;> cases hp : env.spawnOk "python" <;>
          simp [h3, hp, hr1, hr2, update_state, setServerChild, hw]
        exact ⟨j, by omega, hjt⟩
      · cases h3 : env.spawnOk "python3" <;> cases hp : env.spawnOk "python" <;>
          simp [h3, hp, hr1, hr2, update_state, setServerChild, hw]
  · unfold do_start_mcp
    by_cases h0 : check_mcp_port (env.mcpHttp 0) = true
    · simp only [h0, if_pos, if_true]
      intro _
      exact ⟨0, Nat.zero_lt_one, h0⟩
    · by_cases hr : (pollHealth (fun k => check_mcp_port (env.mcpHttp k)) 1 10).1 = true
      · obtain ⟨j, hj1, hjlt, hjt⟩ := pollHealth_success _ 10 1 hr
        cases h3 : env.spawnOk "python3" <;> cases hp : env.spawnOk "python" <;>
          simp [h0, h3, hp, hr, update_mcp_state, setMcpChild, hwm] <;>
          exact ⟨j, by omega, hjt⟩
      · cases h3 : env.spawnOk "python3" <;> cases hp : env.spawnOk "python" <;>
          simp [h0, h3, hp, hr, update_mcp_state, setMcpChild, hwm]

/-- Witness for C6 at the fresh world in the all-healthy environment. -/
theorem C6_witness :
    check_health (envUp.http 0) = true ∧
    ∃ j, j < (do_start_mcp envUp w0).probes ∧
      check_mcp_port (envUp.mcpHttp j) = true := by
  have h := C6_running_only_after_probe envUp w0 rfl rfl
  exact ⟨h.1 (by decide), h.2.2.2 (by decide)⟩

end Achilles
